import Mathlib

/-!
Verification of the woof-wallet development HTTP server (src/server.py).

The file embeds the repository code shallowly: the configuration constants,
the header-finalization step `end_headers`, the `do_OPTIONS` handler and the
exception handling of `main` are translated directly from src/server.py.
The request handling that src/server.py inherits from the HTTP server
library (path resolution, file serving, the default unsupported-method
response) is not part of the repository source, so those parts are modelled
from the specification and marked as such in their doc comments.
-/

namespace WoofWallet

/-- Configuration constant, src/server.py line 13: `PORT = 8000`. -/
def PORT : Nat := 8000

/-- Host part of the bind address, src/server.py line 39:
`socketserver.TCPServer(("", PORT), WoofWalletHandler)`.  The empty host
string is the wildcard address: the socket listens on all interfaces. -/
def bindHost : String := ""

/-- Port part of the bind address, src/server.py line 39. -/
def bindPort : Nat := PORT

/-- The URL printed in the startup banner, src/server.py lines 41 and 43:
only `localhost` is advertised, although the bind host is the wildcard. -/
def bannerURL : String := "http://localhost:" ++ toString PORT

/-- The six headers that `end_headers` (src/server.py lines 20-31) adds to
every response, in source order: three CORS headers, then three security
headers. -/
def fixedHeaders : List (String × String) :=
  [("Access-Control-Allow-Origin", "*"),
   ("Access-Control-Allow-Methods", "GET, POST, OPTIONS"),
   ("Access-Control-Allow-Headers", "Content-Type"),
   ("X-Content-Type-Options", "nosniff"),
   ("X-Frame-Options", "DENY"),
   ("X-XSS-Protection", "1; mode=block")]

/-- The names of the six fixed headers, in the order they are sent. -/
def fixedNames : List String := fixedHeaders.map Prod.fst

/-- `end_headers` (src/server.py lines 20-31): given the status-specific
headers already queued for this response, append the six fixed headers and
finalize.  Every code path that finalizes a response goes through this. -/
def end_headers (sent : List (String × String)) : List (String × String) :=
  sent ++ fixedHeaders

/-- HTTP request methods.  `GET`, `HEAD` and `OPTIONS` have handlers
(`do_OPTIONS` in src/server.py, `GET`/`HEAD` inherited); every other
method, `POST` included, has none. -/
inductive Method where
  | GET
  | HEAD
  | OPTIONS
  | POST
  | other (name : String)
deriving DecidableEq, Repr

/-- A request: a method and a URL path, the path given as its
slash-separated components (which may include "." and ".."). -/
structure Request where
  method : Method
  path : List String
deriving DecidableEq, Repr

/-- A finalized response: status code, the full ordered header list, and
the body bytes. -/
structure Response where
  status : Nat
  headers : List (String × String)
  body : List Nat
deriving DecidableEq, Repr

/-- Result of handling one request: the response, plus whether handling it
touched the filesystem. -/
structure HandleResult where
  response : Response
  fsAccessed : Bool
deriving DecidableEq, Repr

/-- An entry of the served directory tree: a file with its contents and a
readability flag, or a directory with the names of its immediate entries. -/
inductive Entry where
  | file (contents : List Nat) (readable : Bool)
  | dir (names : List String)
deriving DecidableEq, Repr

/-- A finite filesystem under the configured root directory: an association
list from root-relative paths (component lists) to entries. -/
abbrev FS : Type := List (List String × Entry)

/-- Lookup of a root-relative path in the filesystem. -/
def FS.lookup (fs : FS) (p : List String) : Option Entry :=
  match fs with
  | [] => none
  | (q, e) :: rest => if q = p then some e else FS.lookup rest p

/-- Modelled from the spec: resolution of the request path components
against the root directory.  Empty components and "." are skipped, ".."
steps up one component, and stepping above the root escapes the root
directory, which resolution reports as `none`.  The accumulator holds the
root-relative components resolved so far, in reverse. -/
def resolveAux : List String → List String → Option (List String)
  | acc, [] => some acc.reverse
  | acc, c :: rest =>
    if c = "" ∨ c = "." then resolveAux acc rest
    else if c = ".." then
      match acc with
      | [] => none
      | _ :: acc2 => resolveAux acc2 rest
    else resolveAux (c :: acc) rest

/-- Modelled from the spec: resolve a request path relative to the root
directory; `none` means resolution would escape the root. -/
def resolve (path : List String) : Option (List String) := resolveAux [] path

/-- The extension of a file name: the part after the last dot, or the empty
string when the name has no dot. -/
def extensionOf (name : String) : String :=
  match (name.splitOn ".").reverse with
  | [] => ""
  | [_] => ""
  | e :: _ => e

/-- Modelled from the spec: the Content-Type inferred from the file
extension. -/
def guessType (name : String) : String :=
  match extensionOf name with
  | "html" => "text/html"
  | "htm" => "text/html"
  | "css" => "text/css"
  | "js" => "application/javascript"
  | "json" => "application/json"
  | "png" => "image/png"
  | "svg" => "image/svg+xml"
  | "txt" => "text/plain"
  | _ => "application/octet-stream"

/-- The file name of a resolved root-relative path: its last component. -/
def fileName (p : List String) : String := p.getLast?.getD ""

/-- Modelled from the spec: the generated error page for a status code. -/
def errorPage (code : Nat) (msg : String) : List Nat :=
  (("Error " ++ toString code ++ ": " ++ msg).toList).map Char.toNat

/-- Modelled from the spec: the generated directory-listing page
enumerating the immediate entries of a directory. -/
def listingPage (names : List String) : List Nat :=
  ((String.intercalate "\n" names).toList).map Char.toNat

/-- `do_OPTIONS`, src/server.py lines 33-35: send status 200, then finalize
through `end_headers` with no status-specific headers and no body. -/
def do_OPTIONS : Response :=
  { status := 200, headers := end_headers [], body := [] }

/-- Modelled from the spec: the `GET` handling that src/server.py inherits
from the HTTP server library.  Resolve the path against the root; if
resolution would escape the root or the target does not exist, respond 404
with a generated error page; an existing readable file is served with
status 200, its contents as body and a Content-Type inferred from the
extension; a directory gets a generated listing page; a read failure gets
a 500 error page.  Every branch finalizes through `end_headers`. -/
def do_GET (fs : FS) (path : List String) : Response :=
  match resolve path with
  | none =>
    { status := 404
      headers := end_headers [("Content-Type", "text/html")]
      body := errorPage 404 "File not found" }
  | some p =>
    match fs.lookup p with
    | none =>
      { status := 404
        headers := end_headers [("Content-Type", "text/html")]
        body := errorPage 404 "File not found" }
    | some (Entry.file contents readable) =>
      if readable then
        { status := 200
          headers := end_headers
            [("Content-Type", guessType (fileName p)),
             ("Content-Length", toString contents.length)]
          body := contents }
      else
        { status := 500
          headers := end_headers [("Content-Type", "text/html")]
          body := errorPage 500 "Internal error" }
    | some (Entry.dir names) =>
      { status := 200
        headers := end_headers [("Content-Type", "text/html")]
        body := listingPage names }

/-- A response with the same status and headers but an empty body, as sent
for `HEAD` requests. -/
def headOnly (r : Response) : Response :=
  { status := r.status, headers := r.headers, body := [] }

/-- Dispatch of one request.  `do_OPTIONS` is defined in src/server.py
(lines 33-35) and touches no files; `GET`/`HEAD` handling is inherited from
the library and modelled from the spec; every other method, `POST`
included, has no handler, so the library default unsupported-method
response (HTTP 501) is sent, still finalized through `end_headers`
(modelled from the spec). -/
def handle (fs : FS) (req : Request) : HandleResult :=
  match req.method with
  | Method.OPTIONS => { response := do_OPTIONS, fsAccessed := false }
  | Method.GET => { response := do_GET fs req.path, fsAccessed := true }
  | Method.HEAD =>
    { response := headOnly (do_GET fs req.path), fsAccessed := true }
  | _ =>
    { response :=
        { status := 501
          headers := end_headers [("Content-Type", "text/html")]
          body := errorPage 501 "Unsupported method" }
      fsAccessed := false }

/-- Modelled from the spec: the serve loop.  Each incoming request is
handled to completion, independently of the others; per-request errors
surface only as that request's response. -/
def serveMany (fs : FS) (reqs : List Request) : List Response :=
  reqs.map (fun r => (handle fs r).response)

/-- The possible outcomes of the `try` block of `main` (src/server.py
lines 38-47): the serve loop is interrupted by the operator, or an OS error
(carrying its errno) is raised, or some other unexpected exception is
raised.  `serve_forever` never returns normally. -/
inductive ServeOutcome where
  | interrupted
  | osError (errno : Nat) (msg : String)
  | unexpected (msg : String)
deriving DecidableEq, Repr

/-- What the process does on termination: the messages it prints, and its
exit code. -/
structure ProcessExit where
  messages : List String
  exitCode : Nat
deriving DecidableEq, Repr

/-- The port-in-use message of src/server.py line 54. -/
def portInUseMsg : String :=
  "Port " ++ toString PORT ++ " is already in use"

/-- The hint printed after the port-in-use message, src/server.py line 55. -/
def tryDifferentPortMsg : String :=
  "Try a different port or stop the existing server"

/-- The interrupt message of src/server.py line 50. -/
def stoppedMsg : String := "Server stopped by user"

/-- The generic OS-error message of src/server.py line 57. -/
def serverErrorMsg (e : String) : String := "Server error: " ++ e

/-- The unexpected-error message of src/server.py line 60. -/
def unexpectedErrorMsg (e : String) : String := "Unexpected error: " ++ e

/-- The exception handling of `main`, src/server.py lines 49-61: an
interrupt prints the stop message and exits 0; an OSError whose errno
equals the hard-coded constant 48 prints the port-in-use messages, any
other OSError prints the generic server-error message, and both exit 1;
any other exception prints the unexpected-error message and exits 1. -/
def mainExit : ServeOutcome → ProcessExit
  | ServeOutcome.interrupted => { messages := [stoppedMsg], exitCode := 0 }
  | ServeOutcome.osError errno msg =>
    if errno = 48 then
      { messages := [portInUseMsg, tryDifferentPortMsg], exitCode := 1 }
    else
      { messages := [serverErrorMsg msg], exitCode := 1 }
  | ServeOutcome.unexpected msg =>
    { messages := [unexpectedErrorMsg msg], exitCode := 1 }

/-- Modelled from the spec: the idiomatic address-in-use errno value on
Linux (EADDRINUSE = 98); the value 48 hard-coded in src/server.py line 53
is the BSD and macOS EADDRINUSE value. -/
def linuxEADDRINUSE : Nat := 98

/-- A demonstration filesystem: the root directory contains `index.html`
with body `<h1>Hi</h1>`. -/
def demoBytes : List Nat := ("<h1>Hi</h1>".toList).map Char.toNat

/-- The demonstration filesystem itself. -/
def demoFS : FS := [(["index.html"], Entry.file demoBytes true)]

/-- The number of headers with a given name in a finalized header list. -/
def headerCount (hs : List (String × String)) (name : String) : Nat :=
  (hs.filter (fun kv => kv.fst == name)).length

lemma headerCount_append (l1 l2 : List (String × String)) (n : String) :
    headerCount (l1 ++ l2) n = headerCount l1 n + headerCount l2 n := by
  simp [headerCount, List.filter_append]

lemma headerCount_eq_zero (pre : List (String × String)) (n : String)
    (h : ∀ kv ∈ pre, kv.fst ≠ n) : headerCount pre n = 0 := by
  induction pre with
  | nil => rfl
  | cons kv rest ih =>
    have hne : (kv.fst == n) = false := by
      simpa using h kv (List.mem_cons_self kv rest)
    simp only [headerCount, List.filter_cons, hne, cond_false, if_false,
      Bool.false_eq_true]
    exact ih (fun x hx => h x (List.mem_cons_of_mem kv hx))

lemma fixed_count_one : ∀ n ∈ fixedNames, headerCount fixedHeaders n = 1 := by
  decide

lemma do_GET_headers_pre (fs : FS) (p : List String) :
    ∃ pre, ((do_GET fs p).headers = pre ++ fixedHeaders ∧
      ∀ kv ∈ pre, kv.fst ∉ fixedNames) := by
  cases h1 : resolve p with
  | none =>
    refine ⟨[("Content-Type", "text/html")], ?_, ?_⟩
    · simp [do_GET, h1, end_headers]
    · decide
  | some a =>
    cases h2 : FS.lookup fs a with
    | none =>
      refine ⟨[("Content-Type", "text/html")], ?_, ?_⟩
      · simp [do_GET, h1, h2, end_headers]
      · decide
    | some e =>
      cases e with
      | dir names =>
        refine ⟨[("Content-Type", "text/html")], ?_, ?_⟩
        · simp [do_GET, h1, h2, end_headers]
        · decide
      | file contents readable =>
        cases readable with
        | false =>
          refine ⟨[("Content-Type", "text/html")], ?_, ?_⟩
          · simp [do_GET, h1, h2, end_headers]
          · decide
        | true =>
          refine ⟨[("Content-Type", guessType (fileName a)),
                   ("Content-Length", toString contents.length)], ?_, ?_⟩
          · simp [do_GET, h1, h2, end_headers]
          · intro kv hkv
            rcases List.mem_cons.mp hkv with h | h
            · subst h
              exact (by decide : ("Content-Type" : String) ∉ fixedNames)
            · rcases List.mem_cons.mp h with h | h
              · subst h
                exact (by decide : ("Content-Length" : String) ∉ fixedNames)
              · exact absurd h (List.not_mem_nil kv)

lemma handle_headers_pre (fs : FS) (req : Request) :
    ∃ pre, ((handle fs req).response.headers = pre ++ fixedHeaders ∧
      ∀ kv ∈ pre, kv.fst ∉ fixedNames) := by
  cases req with
  | mk m p =>
    cases m with
    | GET => simpa [handle] using do_GET_headers_pre fs p
    | HEAD => simpa [handle, headOnly] using do_GET_headers_pre fs p
    | OPTIONS => exact ⟨[], rfl, by simp⟩
    | POST => exact ⟨[("Content-Type", "text/html")], rfl, by decide⟩
    | other s => exact ⟨[("Content-Type", "text/html")], rfl, by decide⟩

/-- C1: a GET request whose path would resolve outside the configured root
directory gets status 404, and its body is the generated error page — never
the contents of the escaped file (for any filesystem, the body is the same
fixed generated page). -/
theorem traversal_gets_404 (fs : FS) (path : List String)
    (h : resolve path = none) :
    (handle fs { method := Method.GET, path := path }).response.status = 404 ∧
    (handle fs { method := Method.GET, path := path }).response.body =
      errorPage 404 "File not found" := by
  constructor <;> simp [handle, do_GET, h]

/-- Witness for C1 at the concrete traversal path `../../etc/passwd`. -/
theorem traversal_gets_404_witness :
    resolve ["..", "..", "etc", "passwd"] = none ∧
    ((handle demoFS
        { method := Method.GET,
          path := ["..", "..", "etc", "passwd"] }).response.status = 404 ∧
     (handle demoFS
        { method := Method.GET,
          path := ["..", "..", "etc", "passwd"] }).response.body =
       errorPage 404 "File not found") :=
  ⟨rfl, traversal_gets_404 demoFS ["..", "..", "etc", "passwd"] rfl⟩

/-- C2: every finalized response, whatever the method, path, filesystem and
status, carries the six fixed headers with their exact literal values,
appended after the status-specific headers. -/
theorem fixed_headers_on_every_response (fs : FS) (req : Request) :
    (∃ pre, (handle fs req).response.headers = pre ++ fixedHeaders) ∧
    ∀ h ∈ fixedHeaders, h ∈ (handle fs req).response.headers := by
  obtain ⟨pre, hpre, -⟩ := handle_headers_pre fs req
  refine ⟨⟨pre, hpre⟩, fun h hh => ?_⟩
  rw [hpre]
  exact List.mem_append_right pre hh

/-- C3: an OPTIONS request, to any path and over any filesystem, gets
status 200, an empty body and exactly the fixed header set, and handling it
performs no filesystem access. -/
theorem options_bare_200 (fs : FS) (p : List String) :
    (handle fs { method := Method.OPTIONS, path := p }).response.status = 200 ∧
    (handle fs { method := Method.OPTIONS, path := p }).response.body = [] ∧
    (handle fs { method := Method.OPTIONS, path := p }).response.headers =
      fixedHeaders ∧
    (handle fs { method := Method.OPTIONS, path := p }).fsAccessed = false :=
  ⟨rfl, rfl, rfl, rfl⟩

/-- C4: a GET for a path that resolves to an existing readable file under
the root returns status 200 with the file contents as body, a Content-Type
inferred from the file extension, and the fixed header set appended. -/
theorem existing_file_served (fs : FS) (path rel : List String)
    (contents : List Nat)
    (h1 : resolve path = some rel)
    (h2 : FS.lookup fs rel = some (Entry.file contents true)) :
    (handle fs { method := Method.GET, path := path }).response.status = 200 ∧
    (handle fs { method := Method.GET, path := path }).response.body =
      contents ∧
    (handle fs { method := Method.GET, path := path }).response.headers =
      [("Content-Type", guessType (fileName rel)),
       ("Content-Length", toString contents.length)] ++ fixedHeaders := by
  refine ⟨?_, ?_, ?_⟩ <;> simp [handle, do_GET, h1, h2, end_headers]

/-- Witness for C4: `index.html` with body `<h1>Hi</h1>` in the root is
served back byte for byte with the html content type. -/
theorem existing_file_served_witness :
    (handle demoFS
        { method := Method.GET, path := ["index.html"] }).response.status =
      200 ∧
    (handle demoFS
        { method := Method.GET, path := ["index.html"] }).response.body =
      demoBytes ∧
    (handle demoFS
        { method := Method.GET, path := ["index.html"] }).response.headers =
      [("Content-Type", guessType (fileName ["index.html"])),
       ("Content-Length", toString demoBytes.length)] ++ fixedHeaders :=
  existing_file_served demoFS ["index.html"] ["index.html"] demoBytes rfl rfl

/-- C5 counterexample: on Linux, where the idiomatic address-in-use errno
is 98 and not the hard-coded 48 of src/server.py line 53, a bind failure
because the port is already bound prints the generic server-error message,
not the port-in-use message (though it still exits with code 1). -/
theorem addr_in_use_detection_cex :
    (mainExit (ServeOutcome.osError linuxEADDRINUSE
        "Address already in use")).exitCode = 1 ∧
    (mainExit (ServeOutcome.osError linuxEADDRINUSE
        "Address already in use")).messages =
      [serverErrorMsg "Address already in use"] ∧
    portInUseMsg ∉
      (mainExit (ServeOutcome.osError linuxEADDRINUSE
        "Address already in use")).messages := by
  refine ⟨rfl, rfl, ?_⟩
  decide

/-- C5 amended: on a bind-time OSError the process always exits with code
1, and it prints the port-in-use messages exactly when the errno equals the
hard-coded constant 48 (the BSD/macOS EADDRINUSE value) — detection is by a
platform-specific numeric code, not by the idiomatic platform signal. -/
theorem bind_failure_exit (errno : Nat) (msg : String) :
    (mainExit (ServeOutcome.osError errno msg)).exitCode = 1 ∧
    ((mainExit (ServeOutcome.osError errno msg)).messages =
        [portInUseMsg, tryDifferentPortMsg] ↔ errno = 48) := by
  by_cases h : errno = 48
  · subst h
    simp [mainExit]
  · simp [mainExit, h]

/-- C6: the exit code is 0 exactly when the serve loop ended by operator
interrupt, and 1 on any OS error or unexpected error; a message is printed
in every case. -/
theorem exit_code_contract (o : ServeOutcome) :
    (mainExit o).exitCode =
      (if o = ServeOutcome.interrupted then 0 else 1) ∧
    (mainExit o).messages ≠ [] := by
  cases o with
  | interrupted => exact ⟨rfl, by simp [mainExit]⟩
  | osError e m =>
    refine ⟨?_, ?_⟩ <;> simp [mainExit] <;> split <;> simp
  | unexpected m => exact ⟨rfl, by simp [mainExit]⟩

/-- C7: each request in the serve loop is handled to completion
independently: the response to a request is the same whatever requests
surround it, the surrounding requests get their own responses unchanged,
and the response is an ordinary finalized HTTP response carrying the fixed
header set — a per-request error never terminates the loop or leaks into
another connection. -/
theorem per_request_containment (fs : FS) (rs1 rs2 : List Request)
    (r : Request) :
    serveMany fs (rs1 ++ r :: rs2) =
      serveMany fs rs1 ++ (handle fs r).response :: serveMany fs rs2 ∧
    ∃ pre, (handle fs r).response.headers = pre ++ fixedHeaders := by
  refine ⟨by simp [serveMany], ?_⟩
  obtain ⟨pre, hpre, -⟩ := handle_headers_pre fs r
  exact ⟨pre, hpre⟩

/-- C8: the server binds port 8000 on the wildcard (empty) host, i.e. all
interfaces, while the startup banner advertises only localhost. -/
theorem binds_all_interfaces :
    bindHost = "" ∧ bindPort = 8000 ∧
    bannerURL = "http://localhost:8000" :=
  ⟨rfl, rfl, rfl⟩

/-- C9: a POST request, for which no handler is defined although the
Access-Control-Allow-Methods header advertises POST, gets the library
default unsupported-method response, HTTP 501, still carrying the six fixed
headers — among them the header advertising POST. -/
theorem post_gets_501 (fs : FS) (p : List String) :
    (handle fs { method := Method.POST, path := p }).response.status = 501 ∧
    (handle fs { method := Method.POST, path := p }).response.headers =
      [("Content-Type", "text/html")] ++ fixedHeaders ∧
    ("Access-Control-Allow-Methods", "GET, POST, OPTIONS") ∈
      (handle fs { method := Method.POST, path := p }).response.headers := by
  refine ⟨rfl, rfl, ?_⟩
  have hm : ("Access-Control-Allow-Methods", "GET, POST, OPTIONS") ∈
      fixedHeaders := by decide
  exact List.mem_append_right [("Content-Type", "text/html")] hm

/-- C10: in every finalized response each of the six fixed header names
occurs exactly once, and the six appear as a contiguous block in source
order (the three CORS headers, then the three security headers) after the
status-specific headers. -/
theorem fixed_headers_once_in_order (fs : FS) (req : Request) :
    ∃ pre, ((handle fs req).response.headers = pre ++ fixedHeaders ∧
      ∀ n ∈ fixedNames,
        headerCount (handle fs req).response.headers n = 1) := by
  obtain ⟨pre, hpre, hks⟩ := handle_headers_pre fs req
  refine ⟨pre, hpre, fun n hn => ?_⟩
  rw [hpre, headerCount_append,
    headerCount_eq_zero pre n (fun kv hkv heq => (hks kv hkv) (heq ▸ hn)),
    Nat.zero_add]
  exact fixed_count_one n hn

end WoofWallet
